import Mathlib

/-!
Verification of the silver RIFF/WAVE chunk decoder: a shallow embedding of
the chunk traversal engine (`silver/audio/wave/chunky.py`), the format-chunk
resolver (`SWave._fmt` in `silver/audio/wave/wave.py`) and the chunk
dispatch/assembly loop (`SWave.all_chunks`), together with theorems about
the behaviour each spec claim describes.

Bytes are modelled as natural numbers (each in 0..255 at every call site);
Python byte strings are `List Nat`.  Python's `latin-1` decoding is a
bijection between bytes and the code points 0..255, so chunk identifiers are
kept as their code-point lists; `strCodes` turns a Lean string literal into
that representation so the source's string constants stay readable.
Functions that can raise in Python return `Except String`.
-/

namespace Silver

/-- Code points of a string: the `latin-1`-decoded form of a Python byte
string whose bytes are those code points. -/
def strCodes (s : String) : List Nat :=
  s.toList.map Char.toNat

/-- Inverse of `strCodes` on the code points we produce (0..255 and the
lowercase mappings, all valid scalar values). -/
def codesToString (l : List Nat) : String :=
  String.mk (l.map Char.ofNat)

/-- The two byte orders `Chunky.get_byteorder` can produce: the Python
strings "little" and "big". -/
inductive ByteOrder where
  | little
  | big
deriving DecidableEq, Repr

/-- Python's `int.from_bytes(bytes, byteorder)` (unsigned, any length). -/
def fromBytes : ByteOrder → List Nat → Nat
  | ByteOrder.little, l => l.foldr (fun b acc => b + 256 * acc) 0
  | ByteOrder.big, l => l.foldl (fun acc b => 256 * acc + b) 0

/-- The 2-byte field of a struct pattern at `off`, read in byte order `bo`
(struct code `H`). -/
def u16 (bo : ByteOrder) (data : List Nat) (off : Nat) : Nat :=
  fromBytes bo ((data.drop off).take 2)

/-- The 4-byte field of a struct pattern at `off`, read in byte order `bo`
(struct code `I`). -/
def u32 (bo : ByteOrder) (data : List Nat) (off : Nat) : Nat :=
  fromBytes bo ((data.drop off).take 4)

/-- A seekable byte source: the in-memory buffer and the read position,
as Python's `io.BytesIO` exposes them to the chunk walker. -/
structure ByteStream where
  data : List Nat
  pos : Nat
deriving DecidableEq, Repr

/-- `stream.read(n)`: up to `n` bytes from the current position, advancing
the position by the number of bytes actually obtained. -/
def ByteStream.read (s : ByteStream) (n : Nat) : List Nat × ByteStream :=
  let taken := (s.data.drop s.pos).take n
  (taken, { s with pos := s.pos + taken.length })

/-- `stream.seek(k, 1)`: relative seek.  Python raises on a negative target
position; every call site of the source keeps the target nonnegative, where
the `Int.toNat` clamp below is exact. -/
def ByteStream.seekRel (s : ByteStream) (k : Int) : ByteStream :=
  { s with pos := ((s.pos : Int) + k).toNat }

/-- A raw chunk record yielded by the walker: the `(identifier, size, data)`
triple of `Chunky.get_chunks`. -/
structure RawChunk where
  identifier : List Nat
  size : Nat
  payload : List Nat
deriving DecidableEq, Repr

/-- `IGNORE_CHUNKS` of `chunky.py`: identifiers whose payload is never read,
only their size matters. -/
def IGNORE_CHUNKS : List (List Nat) :=
  [strCodes "data", strCodes "JUNK", strCodes "FLLR", strCodes "PAD "]

/-- `OPTIONAL_IGNORE_CHUNKS` of `chunky.py`: ProTools-style chunks skipped
only when the caller passes `ignore=True`. -/
def OPTIONAL_IGNORE_CHUNKS : List (List Nat) :=
  [strCodes "minf", strCodes "elm1", strCodes "regn", strCodes "umid",
   strCodes "elmo", strCodes "DGDA", strCodes "ovwf"]

/-- `Chunky.get_byteorder`: byte order from the 4-byte master identifier, a
`ValueError` for anything unrecognized.  Note the source accepts the tag
"FIRR", not "FFIR". -/
def getByteorder (master : List Nat) : Except String ByteOrder :=
  if master ∈ [strCodes "RIFF", strCodes "BW64", strCodes "RF64"] then
    Except.ok ByteOrder.little
  else if master ∈ [strCodes "RIFX", strCodes "FIRR"] then
    Except.ok ByteOrder.big
  else
    Except.error ("Invalid master chunk identifier: " ++ codesToString master)

/-- `Chunky._skip_afsp`: scan forward until the next 4 bytes read "DISP" or
"LIST" (then back up to that boundary) or the stream runs out.  The scan is
fuelled; each pass advances the position by one, so any fuel of at least
`s.data.length + 2` reproduces the Python loop exactly. -/
def skipAfsp : Nat → ByteStream → ByteStream
  | 0, s => s
  | fuel + 1, s =>
    let r := s.read 4
    if r.1.length < 4 then r.2
    else if r.1 = strCodes "DISP" ∨ r.1 = strCodes "LIST" then r.2.seekRel (-4)
    else skipAfsp fuel (r.2.seekRel (-3))

/-- The even-size padding rule of `chunky.py`: an odd chunk size is rounded
up, except for the `bext` chunk. -/
def padSize (chunkId : List Nat) (n : Nat) : Nat :=
  if n % 2 ≠ 0 ∧ chunkId ≠ strCodes "bext" then n + 1 else n

/-- The yield step shared by `Chunky._riff` and `Chunky._rf64` once the
identifier and (padding-adjusted) size are known: read the payload unless
the identifier is on an ignore list, then seek to
`current_position + chunk_size - len(chunk_data)`. -/
def riffYield (ignoreFlag : Bool) (chunkId : List Nat) (chunkSize : Nat)
    (s : ByteStream) : RawChunk × ByteStream :=
  let r :=
    if chunkId ∈ IGNORE_CHUNKS ∨ (ignoreFlag = true ∧ chunkId ∈ OPTIONAL_IGNORE_CHUNKS)
    then (([] : List Nat), s)
    else s.read chunkSize
  (⟨chunkId, chunkSize, r.1⟩, r.2.seekRel ((chunkSize : Int) - (r.1.length : Int)))

/-- Modelled from the spec: the same yield step "had the payload been fully
read instead of skipped" — the ignore-list test removed, everything else as
in `riffYield`.  Comparison target for the seek-position claim. -/
def riffYieldMaterialized (chunkId : List Nat) (chunkSize : Nat)
    (s : ByteStream) : RawChunk × ByteStream :=
  let r := s.read chunkSize
  (⟨chunkId, chunkSize, r.1⟩, r.2.seekRel ((chunkSize : Int) - (r.1.length : Int)))

/-- `Chunky._riff`: yield identifier/size/payload triples until fewer than 4
bytes remain for an identifier or size field.  Fuelled recursion; each pass
advances the position by at least 4, so fuel `s.data.length + 2` reproduces
the Python `while True` loop. -/
def riffLoop (ignoreFlag : Bool) (bo : ByteOrder) : Nat → ByteStream → List RawChunk
  | 0, _ => []
  | fuel + 1, s =>
    let ri := s.read 4
    if ri.1.length < 4 then []
    else if ri.1 = strCodes "afsp" then
      riffLoop ignoreFlag bo fuel (skipAfsp (s.data.length + 2) ri.2)
    else
      let rs := ri.2.read 4
      if rs.1.length < 4 then []
      else
        let chunkSize := padSize ri.1 (fromBytes bo rs.1)
        let y := riffYield ignoreFlag ri.1 chunkSize rs.2
        y.1 :: riffLoop ignoreFlag bo fuel y.2

/-- The `ds64` table captured by `Chunky._rf64` into `self.ds64`. -/
structure Ds64Table where
  chunkSize : Nat
  riffLowSize : Nat
  riffHighSize : Nat
  dataLowSize : Nat
  dataHighSize : Nat
  sampleLowCount : Nat
  sampleHighCount : Nat
  tableEntryCount : Nat
deriving DecidableEq, Repr

/-- The chunk loop of `Chunky._rf64`: like `_riff`, but the sizes of `data`
and `fact` come from the `ds64` table (their own 4-byte size field is read
and discarded), and an all-zero identifier is walked over without being
yielded. -/
def rf64Loop (ignoreFlag : Bool) (bo : ByteOrder) (dataSize factSize : Nat) :
    Nat → ByteStream → List RawChunk
  | 0, _ => []
  | fuel + 1, s =>
    let ri := s.read 4
    if ri.1.length < 4 then []
    else if ri.1 = strCodes "afsp" then
      rf64Loop ignoreFlag bo dataSize factSize fuel (skipAfsp (s.data.length + 2) ri.2)
    else
      let step : Option (Nat × ByteStream) :=
        if ri.1 = strCodes "data" then some (dataSize, (ri.2.read 4).2)
        else if ri.1 = strCodes "fact" then some (factSize, (ri.2.read 4).2)
        else
          let rs := ri.2.read 4
          if rs.1.length < 4 then none else some (fromBytes bo rs.1, rs.2)
      match step with
      | none => []
      | some (rawSize, s2) =>
        let chunkSize := padSize ri.1 rawSize
        let y := riffYield ignoreFlag ri.1 chunkSize s2
        if ri.1 ≠ [0, 0, 0, 0] then
          y.1 :: rf64Loop ignoreFlag bo dataSize factSize fuel y.2
        else
          rf64Loop ignoreFlag bo dataSize factSize fuel y.2

/-- `Chunky._rf64` up to and including the `ds64` capture: the chunk right
after the 12-byte header must read `ds64` (else `ValueError`), its eight
32-bit fields are read, `table_entry_count * 12` bytes of table entries are
skipped, and the loop continues with the 64-bit `data`/`fact` sizes. -/
def rf64 (ignoreFlag : Bool) (bo : ByteOrder) (s : ByteStream) :
    Except String (Ds64Table × List RawChunk) :=
  if (s.read 4).1 ≠ strCodes "ds64" then
    Except.error ("Expected ds64 chunk but found " ++ codesToString (s.read 4).1)
  else
    let ri := s.read 4
    let r1 := ri.2.read 4
    let r2 := r1.2.read 4
    let r3 := r2.2.read 4
    let r4 := r3.2.read 4
    let r5 := r4.2.read 4
    let r6 := r5.2.read 4
    let r7 := r6.2.read 4
    let r8 := r7.2.read 4
    let table : Ds64Table :=
      { chunkSize := fromBytes bo r1.1
        riffLowSize := fromBytes bo r2.1
        riffHighSize := fromBytes bo r3.1
        dataLowSize := fromBytes bo r4.1
        dataHighSize := fromBytes bo r5.1
        sampleLowCount := fromBytes bo r6.1
        sampleHighCount := fromBytes bo r7.1
        tableEntryCount := fromBytes bo r8.1 }
    let s9 : ByteStream := { r8.2 with pos := r8.2.pos + table.tableEntryCount * 12 }
    let dataSize := table.dataLowSize + (table.dataHighSize <<< 32)
    let factSize := table.sampleLowCount + (table.sampleHighCount <<< 32)
    Except.ok (table, rf64Loop ignoreFlag bo dataSize factSize (s.data.length + 2) s9)

/-- The per-decode state `Chunky` leaves on itself for `SWave` to read:
master tag, byte order, form type and the optional `ds64` table. -/
structure ChunkyState where
  master : List Nat
  byteorder : ByteOrder
  formtype : List Nat
  ds64 : Option Ds64Table
deriving DecidableEq, Repr

/-- The body of `Chunky.get_chunks` once the byte order is resolved: the
sentinel test on the declared container size (the source compares
`hex(size)` against the string "0xffffffff", equivalent to this value
test), then `ds64` mode, standard mode, or the unknown-format error. -/
def getChunksWithBo (streamData : List Nat) (ignoreFlag : Bool) (bo : ByteOrder) :
    Except String (ChunkyState × List RawChunk) :=
  if fromBytes bo ((streamData.drop 4).take 4) = 0xffffffff then
    match rf64 ignoreFlag bo ⟨streamData, 12⟩ with
    | Except.error e => Except.error e
    | Except.ok (table, chunks) =>
      Except.ok (⟨streamData.take 4, bo, (streamData.drop 8).take 4, some table⟩, chunks)
  else if streamData.take 4
      ∈ [strCodes "RIFF", strCodes "RIFX", strCodes "FIRR", strCodes "BW64"] then
    Except.ok (⟨streamData.take 4, bo, (streamData.drop 8).take 4, none⟩,
      riffLoop ignoreFlag bo (streamData.length + 2) ⟨streamData, 12⟩)
  else
    Except.error ("Unknown or unsupported format: " ++ codesToString (streamData.take 4))

/-- `Chunky.get_chunks`: resolve the byte order from the master tag, then
dispatch on the declared container size (see `getChunksWithBo`).  The three
header reads are contiguous from offset 0, so they return exactly the
slices at 0, 4 and 8, and the walker resumes at offset 12; a read comes up
short only at end of stream, where the corresponding slice — and every
later one — is the same shortened or empty list, so the slice form and the
sequential-read form produce the same chunks.  Exceptions are
`Except.error`; every error of the source is raised before the first chunk
is yielded, so an error carries no partial chunk list. -/
def getChunks (streamData : List Nat) (ignoreFlag : Bool) :
    Except String (ChunkyState × List RawChunk) :=
  match getByteorder (streamData.take 4) with
  | Except.error e => Except.error e
  | Except.ok bo => getChunksWithBo streamData ignoreFlag bo

/-- Modelled from the spec: a non-fatal diagnostic, "collected as
`(location, message)` pairs attached to the offending decoded record".  The
class itself lives in `silver/audio/wave/errors.py`, which is not among the
repository files; every diagnostic the resolver creates is built right at
its append site in `wave.py`, so only this record shape is modelled. -/
structure PerverseError where
  location : String
  message : String
deriving DecidableEq, Repr

/-- The location tag `FORMAT_CHUNK_LOCATION` of `wave.py`. -/
def fmtLoc : String := "['fmt ' / FORMAT]"

/-- The `PVOC_EX` GUID string list of `wave.py` (lines 22-25), exactly as
written there: the first entry mixes upper and lower case, the second is all
lower case. -/
def PVOC_EX : List String :=
  ["8312B9C2-2E6E-11d4-A824-DE5B96C3AB21",
   "c2b91283-6e2e-d411-a824-de5b96c3ab21"]

/-- Modelled from the spec: the "fixed bit → speaker-name table, preserving
table order" (`GENERIC_CHANNEL_MASK_MAP` from `wave/_storage.py`, a file not
among the repository files).  The standard WAVEFORMATEXTENSIBLE mask bits in
ascending order; no claim depends on the entries, only on the lookup
discipline around them. -/
def GENERIC_CHANNEL_MASK_MAP : List (Nat × String) :=
  [(0x1, "Front Left"), (0x2, "Front Right"), (0x4, "Front Center"),
   (0x8, "Low Frequency"), (0x10, "Back Left"), (0x20, "Back Right"),
   (0x40, "Front Left of Center"), (0x80, "Front Right of Center"),
   (0x100, "Back Center"), (0x200, "Side Left"), (0x400, "Side Right"),
   (0x800, "Top Center"), (0x1000, "Top Front Left"), (0x2000, "Top Front Center"),
   (0x4000, "Top Front Right"), (0x8000, "Top Back Left"),
   (0x10000, "Top Back Center"), (0x20000, "Top Back Right")]

/-- One lowercase hex digit. -/
def hexChar (d : Nat) : Char :=
  if d < 10 then Char.ofNat (48 + d) else Char.ofNat (87 + d)

/-- Lowercase hex rendering of a byte list. -/
def hexOfBytes (l : List Nat) : List Char :=
  l.flatMap (fun b => [hexChar (b / 16), hexChar (b % 16)])

/-- `str(uuid.UUID(bytes=l))` for a 16-byte `l`: the 8-4-4-4-12 hyphenated
lowercase hex rendering of the bytes in order. -/
def guidStr (l : List Nat) : String :=
  String.mk (hexOfBytes (l.take 4) ++ Char.ofNat 45 ::
    (hexOfBytes ((l.drop 4).take 2) ++ Char.ofNat 45 ::
      (hexOfBytes ((l.drop 6).take 2) ++ Char.ofNat 45 ::
        (hexOfBytes ((l.drop 8).take 2) ++ Char.ofNat 45 ::
          hexOfBytes ((l.drop 10).take 6)))))

/-- Python's `f"{n:016b}"`: binary digits zero-padded on the left to at
least 16 characters. -/
def channelMaskStr (n : Nat) : String :=
  let digits := Nat.toDigits 2 n
  String.mk (List.replicate (16 - digits.length) (Char.ofNat 48) ++ digits)

/-- The `subformat` dictionary built for an Extensible `fmt ` chunk:
`{"audio_format": format_code, "guid": str(guid)}`. -/
structure WaveSubformat where
  audioFormat : Nat
  guid : String
deriving DecidableEq, Repr

/-- The `WaveFormatChunk` dataclass of `wave.py`.  The two `f32` PVOC-EX
fields (`analysis_rate`, `window_param`) are kept as their raw 32-bit
patterns — no claim inspects them, and modelling IEEE-754 decoding would add
nothing.  The `__post_init__` step that copies the PVOC-EX fields into the
`subformat` dictionary is likewise left out: the fields themselves carry the
information. -/
structure WaveFormatChunk where
  identifier : List Nat
  size : Int
  mode : Option String
  sanity : List PerverseError
  audioFormat : Nat
  channelCount : Nat
  sampleRate : Nat
  byteRate : Nat
  blockAlign : Nat
  bitsPerSample : Nat
  extensionSize : Option Nat
  validBitsPerSample : Option Nat
  channelMask : Option String
  speakerLayout : Option (List String)
  subformat : Option WaveSubformat
  version : Option Nat
  pvocSize : Option Nat
  wordFormat : Option Nat
  analysisFormat : Option Nat
  sourceFormat : Option Nat
  windowType : Option Nat
  binCount : Option Nat
  windowLength : Option Nat
  overlap : Option Nat
  frameAlign : Option Nat
  analysisRateBits : Option Nat
  windowParamBits : Option Nat
deriving DecidableEq, Repr

/-- `SWave._fmt` (wave.py lines 737-885): decode a `fmt ` payload into a
`WaveFormatChunk`.  `struct.unpack` length mismatches and the `uuid.UUID`
length requirement are the `Except.error` cases; everything else returns
`Except.ok` with diagnostics collected in `sanity`. -/
def fmtDecode (bo : ByteOrder) (identifier : List Nat) (size : Int)
    (data : List Nat) : Except String WaveFormatChunk :=
  if data.length < 16 then
    Except.error "struct.error: unpack requires a buffer of 16 bytes"
  else
    let audioFormat := u16 bo data 0
    let base : WaveFormatChunk :=
      { identifier := identifier, size := size, mode := none, sanity := []
        audioFormat := audioFormat, channelCount := u16 bo data 2
        sampleRate := u32 bo data 4, byteRate := u32 bo data 8
        blockAlign := u16 bo data 12, bitsPerSample := u16 bo data 14
        extensionSize := none, validBitsPerSample := none, channelMask := none
        speakerLayout := none, subformat := none, version := none
        pvocSize := none, wordFormat := none, analysisFormat := none
        sourceFormat := none, windowType := none, binCount := none
        windowLength := none, overlap := none, frameAlign := none
        analysisRateBits := none, windowParamBits := none }
    if audioFormat ≠ 1 ∧ size = 16 then
      Except.ok { base with
        sanity := [⟨fmtLoc ++ " -- AUDIO FORMAT / SIZE",
                    "NON-PCM FORMATS MUST CONTAIN AN EXTENSION FIELD."⟩] }
    else if audioFormat = 65534 then
      if data.length < 24 then
        Except.error "struct.error: unpack requires a buffer of 8 bytes"
      else
        let cmask := u32 bo data 20
        let sfmt := (data.drop 24).take 16
        if sfmt.length < 2 then
          Except.error "struct.error: unpack requires a buffer of 2 bytes"
        else if sfmt.length ≠ 16 then
          Except.error "ValueError: bytes is not a 16-char string"
        else
          let guid := guidStr sfmt
          let ext : WaveFormatChunk := { base with
            mode := some "WAVE_FORMAT_EXTENSIBLE"
            extensionSize := some (u16 bo data 16)
            validBitsPerSample := some (u16 bo data 18)
            channelMask := some (channelMaskStr cmask)
            speakerLayout := some (GENERIC_CHANNEL_MASK_MAP.filterMap
              (fun p => if cmask &&& p.1 ≠ 0 then some p.2 else none))
            subformat := some ⟨fromBytes bo (sfmt.take 2), guid⟩ }
          if guid ∈ PVOC_EX then
            if size ≠ 80 then
              -- the source only builds a local message here; it never
              -- appends it to `sanity` and leaves the mode Extensible
              Except.ok ext
            else if data.length < 48 then
              Except.error "struct.error: unpack requires a buffer of 8 bytes"
            else
              let pvocSize := u32 bo data 44
              let seg := (data.drop 48).take pvocSize
              if seg.length ≠ 32 then
                Except.error "struct.error: unpack requires a buffer of 32 bytes"
              else
                Except.ok { ext with
                  mode := some "WAVE_FORMAT_PVOC_EX"
                  version := some (u32 bo data 40)
                  pvocSize := some pvocSize
                  wordFormat := some (fromBytes bo (seg.take 2))
                  analysisFormat := some (fromBytes bo ((seg.drop 2).take 2))
                  sourceFormat := some (fromBytes bo ((seg.drop 4).take 2))
                  windowType := some (fromBytes bo ((seg.drop 6).take 2))
                  binCount := some (fromBytes bo ((seg.drop 8).take 4))
                  windowLength := some (fromBytes bo ((seg.drop 12).take 4))
                  overlap := some (fromBytes bo ((seg.drop 16).take 4))
                  frameAlign := some (fromBytes bo ((seg.drop 20).take 4))
                  analysisRateBits := some (fromBytes bo ((seg.drop 24).take 4))
                  windowParamBits := some (fromBytes bo ((seg.drop 28).take 4)) }
          else if size ≠ 40 then
            Except.ok { ext with
              sanity := [⟨fmtLoc ++ " -- AUDIO FORMAT / SIZE",
                "AUDIO FORMAT (EXTENSIBLE / 65534 / 0xFFFE) MUST BE SIZE 40 NOT "
                  ++ toString size⟩] }
          else
            Except.ok ext
    else if size = 18 then
      if data.length < 18 then
        Except.error "struct.error: unpack requires a buffer of 2 bytes"
      else
        Except.ok { base with
          mode := some "WAVE_FORMAT_EXTENDED"
          extensionSize := some (u16 bo data 16) }
    else if size ≠ 16 then
      Except.ok { base with
        mode := some "WAVE_FORMAT_PCM"
        sanity := [⟨fmtLoc ++ " -- AUDIO FORMAT / SIZE",
          "AUDIO FORMAT (PCM / 1 / 0x0001) MUST BE SIZE 16 NOT "
            ++ toString size ++ "."⟩] }
    else
      Except.ok { base with mode := some "WAVE_FORMAT_PCM" }

/-- Python's `str.lower()` on one character, restricted to the code points a
`latin-1` decode can produce (0..255): ASCII and Latin-1 capitals gain 32
(the multiplication sign 0xD7 excepted), micro sign 0xB5 maps to Greek small
mu, everything else is fixed. -/
def pyLower (c : Nat) : Nat :=
  if 65 ≤ c ∧ c ≤ 90 then c + 32
  else if c = 0xb5 then 0x3bc
  else if 0xc0 ≤ c ∧ c ≤ 0xde ∧ c ≠ 0xd7 then c + 32
  else c

/-- Python's `str.isspace()` over the code points 0..255 (what `str.strip()`
with no argument removes). -/
def pyIsSpace (c : Nat) : Bool :=
  c ∈ [9, 10, 11, 12, 13, 28, 29, 30, 31, 32, 133, 160]

/-- Python's `str.strip()`: whitespace removed from both ends. -/
def pyStrip (l : List Nat) : List Nat :=
  ((l.dropWhile pyIsSpace).reverse.dropWhile pyIsSpace).reverse

/-- The `WaveDataChunk` dataclass: `byte_count` is the declared size,
`frame_count` starts as `None` and is only filled in by the assembly
loop's cross-chunk recomputation. -/
structure WaveDataChunk where
  identifier : List Nat
  rawData : List Nat
  byteCount : Int
  frameCount : Option Int
deriving DecidableEq, Repr

/-- A value stored in one of `SWave`'s per-chunk attributes.  `fmt ` and
`data` records are decoded in full; the other registered fixed-layout
decoders (`fact`, `info`, `inst`, `levl`, `smpl`, `acid`, `cart`, `chna`,
`strc`, `bext`, `disp`, `cue`, `adtl`, `_PMX`, `axml`, `ixml`, `md5`) are
outside the spec's core and no claim inspects their output, so their record
keeps the raw identifier/size/payload; unknown identifiers become a
`GenericChunk` exactly as in the source. -/
inductive Decoded where
  | fmtChunk (f : WaveFormatChunk)
  | dataChunk (d : WaveDataChunk)
  | knownChunk (identifier : List Nat) (size : Int) (payload : List Nat)
  | genericChunk (identifier : List Nat) (size : Int) (payload : List Nat)
deriving DecidableEq, Repr

/-- The document `SWave.all_chunks` assembles on the `SWave` object: the
`self.chunks` record list, the decoded chunk attributes keyed by their
attribute name (an attribute never set models the initial `None`), and the
per-identifier occurrence counters `chunk_counts`. -/
structure SWaveDoc where
  chunks : List (List Nat × Int × List Nat)
  slots : List (String × Decoded)
  counts : List (String × Nat)
deriving DecidableEq, Repr

/-- Look up a decoded chunk attribute by name. -/
def SWaveDoc.slot (d : SWaveDoc) (name : String) : Option Decoded :=
  (d.slots.find? (fun p => p.1 = name)).map (fun p => p.2)

/-- `setattr`: overwrite the attribute if present, create it otherwise. -/
def setSlot (slots : List (String × Decoded)) (name : String) (v : Decoded) :
    List (String × Decoded) :=
  if slots.any (fun p => p.1 = name) then
    slots.map (fun p => if p.1 = name then (name, v) else p)
  else
    slots ++ [(name, v)]

/-- Occurrence count lookup in `chunk_counts` (0 when the key is absent). -/
def countOf (counts : List (String × Nat)) (name : String) : Nat :=
  ((counts.find? (fun p => p.1 = name)).map (fun p => p.2)).getD 0

/-- Store an occurrence count. -/
def setCount (counts : List (String × Nat)) (name : String) (v : Nat) :
    List (String × Nat) :=
  if counts.any (fun p => p.1 = name) then
    counts.map (fun p => if p.1 = name then (name, v) else p)
  else
    counts ++ [(name, v)]

/-- The decoder methods `SWave` exposes, by the case-folded identifier that
reaches them: `hasattr(self, f"_{false_identifier}")` holds exactly for
these (plus the `_pmx` method, reached when the case-folded identifier is
"_pmx" or "pmx" and special-cased in `assembleStep`). -/
def DECODER_IDS : List String :=
  ["fmt", "data", "fact", "info", "inst", "levl", "smpl", "acid", "cart",
   "chna", "strc", "bext", "disp", "cue", "adtl", "axml", "ixml", "md5"]

/-- The synthetic record re-emitted for a `LIST`/`adtl` chunk (wave.py lines
586-592): the stripped 4-byte sub-type tag becomes the identifier, the size
drops by 12, the payload loses its first 4 bytes. -/
def listSynthetic (size : Int) (data : List Nat) : List Nat × Int × List Nat :=
  (pyStrip (data.take 4), size - 12, data.drop 4)

/-- The `data` / `fmt ` cross-chunk recomputation that closes every
iteration of `SWave.all_chunks`: when both the `fmt` and the `data`
attribute are set, `self.data.frame_count = int(self.data.byte_count /
self.fmt.block_align)` — a `ZeroDivisionError` when `block_align` is zero.
`int()` truncates toward zero, which on these operands is `Int` division.
(The slots named `fmt` and `data` are only ever filled by the respective
decoders, so the fall-through match arm is unreachable.) -/
def recomputeFrameCount (doc : SWaveDoc) : Except String SWaveDoc :=
  match doc.slot "fmt", doc.slot "data" with
  | some (Decoded.fmtChunk f), some (Decoded.dataChunk d) =>
    if f.blockAlign = 0 then
      Except.error "ZeroDivisionError: division by zero"
    else
      let d2 := Decoded.dataChunk
        { d with frameCount := some (d.byteCount / (f.blockAlign : Int)) }
      Except.ok { doc with slots := setSlot doc.slots "data" d2 }
  | _, _ => Except.ok doc

/-- One iteration of the `SWave.all_chunks` loop for the record
`(identifier, size, data)`: append it to `self.chunks`, unwrap `LIST`/`adtl`
one level (appending the synthetic record and dispatching it instead),
case-fold the identifier, bump its occurrence counter, pick the attribute
name, dispatch to a decoder or build a `GenericChunk`, then recompute the
`data` frame count. -/
def assembleStep (bo : ByteOrder) (doc : SWaveDoc)
    (c : List Nat × Int × List Nat) : Except String SWaveDoc :=
  let doc0 : SWaveDoc := { doc with chunks := doc.chunks ++ [c] }
  let unwrapped :=
    if c.1 = strCodes "LIST" ∨ c.1 = strCodes "adtl" then
      let syn := listSynthetic c.2.1 c.2.2
      (syn, { doc0 with chunks := doc0.chunks ++ [syn] })
    else
      (c, doc0)
  let identifier := unwrapped.1.1
  let size := unwrapped.1.2.1
  let data := unwrapped.1.2.2
  let doc1 := unwrapped.2
  let falseId := codesToString (pyStrip (identifier.map pyLower))
  let count := countOf doc1.counts falseId + 1
  let counts2 := setCount doc1.counts falseId count
  let attrName := if count = 1 then falseId else falseId ++ toString count
  let stored : Except String (String × Decoded) :=
    if falseId = "_pmx" ∨ falseId = "pmx" then
      -- both fold to the method name `_pmx`, whose attribute is forced "pmx"
      Except.ok ("pmx", Decoded.knownChunk identifier size data)
    else if falseId ∈ DECODER_IDS then
      if falseId = "fmt" then
        match fmtDecode bo identifier size data with
        | Except.error e => Except.error e
        | Except.ok f => Except.ok (attrName, Decoded.fmtChunk f)
      else if falseId = "data" then
        Except.ok (attrName, Decoded.dataChunk ⟨identifier, data, size, none⟩)
      else
        Except.ok (attrName, Decoded.knownChunk identifier size data)
    else
      Except.ok (attrName, Decoded.genericChunk identifier size data)
  match stored with
  | Except.error e => Except.error e
  | Except.ok (name, v) =>
    recomputeFrameCount { doc1 with slots := setSlot doc1.slots name v, counts := counts2 }

/-- The `for` loop of `SWave.all_chunks` over a record list. -/
def assembleList (bo : ByteOrder) (doc : SWaveDoc) :
    List (List Nat × Int × List Nat) → Except String SWaveDoc
  | [] => Except.ok doc
  | c :: rest =>
    match assembleStep bo doc c with
    | Except.error e => Except.error e
    | Except.ok doc2 => assembleList bo doc2 rest

/-- `SWave.all_chunks` applied to the walker's chunk sequence, starting from
the freshly initialized object (no chunk attribute set yet). -/
def assembleChunks (bo : ByteOrder) (cs : List RawChunk) : Except String SWaveDoc :=
  assembleList bo ⟨[], [], []⟩ (cs.map (fun c => (c.identifier, (c.size : Int), c.payload)))

/-- The whole decode: walk the chunks, then assemble them with the byte
order the walker resolved. -/
def swaveDecode (streamData : List Nat) (ignoreFlag : Bool) :
    Except String SWaveDoc :=
  match getChunks streamData ignoreFlag with
  | Except.error e => Except.error e
  | Except.ok (st, cs) => assembleChunks st.byteorder cs

/-- The `frame_count` of the data chunk stored at slot `name`, when that
slot holds a decoded `data` chunk. -/
def slotFrameCount (doc : SWaveDoc) (name : String) : Option (Option Int) :=
  match doc.slot name with
  | some (Decoded.dataChunk d) => some d.frameCount
  | _ => none

/-- The `self.chunks` record list of a completed assembly (empty when the
decode aborted with an exception, since no document is returned then). -/
def chunkRecords (bo : ByteOrder) (cs : List RawChunk) :
    List (List Nat × Int × List Nat) :=
  match assembleChunks bo cs with
  | Except.ok d => d.chunks
  | Except.error _ => []

/-! Concrete inputs used by witnesses and counterexamples. -/

/-- The PVOC-EX GUID stored in the little-endian WAVEFORMATEXTENSIBLE byte
layout: `uuid.UUID(bytes=·)` renders it "c2b91283-6e2e-d411-a824-de5b96c3ab21",
the second (all-lowercase) `PVOC_EX` entry. -/
def pvocGuidBytesLE : List Nat :=
  [0xc2, 0xb9, 0x12, 0x83, 0x6e, 0x2e, 0xd4, 0x11,
   0xa8, 0x24, 0xde, 0x5b, 0x96, 0xc3, 0xab, 0x21]

/-- The same GUID stored in the big-endian (fields-in-order) byte layout:
`uuid.UUID(bytes=·)` renders it "8312b9c2-2e6e-11d4-a824-de5b96c3ab21",
which matches the first `PVOC_EX` entry except for letter case. -/
def pvocGuidBytesBE : List Nat :=
  [0x83, 0x12, 0xb9, 0xc2, 0x2e, 0x6e, 0x11, 0xd4,
   0xa8, 0x24, 0xde, 0x5b, 0x96, 0xc3, 0xab, 0x21]

/-- An 80-byte Extensible `fmt ` payload (little-endian stream) whose
sub-format block holds the big-endian PVOC-EX GUID layout. -/
def c5dataBE : List Nat :=
  [254, 255] ++ List.replicate 14 0 ++ List.replicate 8 0
    ++ pvocGuidBytesBE ++ List.replicate 40 0

/-- An 80-byte Extensible `fmt ` payload (little-endian stream) whose
sub-format block holds the little-endian PVOC-EX GUID layout and whose
`pvoc_size` field (bytes 44-48) is 32. -/
def c5dataLE : List Nat :=
  [254, 255] ++ List.replicate 14 0 ++ List.replicate 8 0
    ++ pvocGuidBytesLE ++ [0, 0, 0, 0] ++ [32, 0, 0, 0] ++ List.replicate 32 0

/-- A 40-byte Extensible `fmt ` payload for a big-endian stream
(`audio_format` bytes FF FE read big-endian) whose sub-format bytes 24-25
are 00 01. -/
def c7dataBE : List Nat :=
  [255, 254] ++ List.replicate 22 0 ++ [0, 1] ++ List.replicate 14 0

/-- A 16-byte A-law `fmt ` payload, little-endian: `audio_format = 6`,
1 channel, 8000 Hz, 8000 B/s, `block_align = 1`, 8 bits. -/
def alawPayload : List Nat :=
  [6, 0, 1, 0, 64, 31, 0, 0, 64, 31, 0, 0, 1, 0, 8, 0]

/-- A 16-byte PCM `fmt ` payload, little-endian, `block_align = 4`. -/
def pcmPayloadBa4 : List Nat :=
  [1, 0, 2, 0, 68, 172, 0, 0, 16, 177, 2, 0, 4, 0, 16, 0]

/-- A 16-byte PCM `fmt ` payload, little-endian, `block_align = 2`. -/
def pcmPayloadBa2 : List Nat :=
  [1, 0, 1, 0, 68, 172, 0, 0, 136, 88, 1, 0, 2, 0, 16, 0]

/-- A 16-byte PCM `fmt ` payload, little-endian, `block_align = 0`. -/
def pcmPayloadBa0 : List Nat :=
  [1, 0, 2, 0, 68, 172, 0, 0, 16, 177, 2, 0, 0, 0, 16, 0]

/-- Chunk sequence with two `fmt `/`data` pairs whose block alignments
differ (4 for the first pair, 2 for the second). -/
def twoPairChunks : List RawChunk :=
  [⟨strCodes "fmt ", 16, pcmPayloadBa4⟩, ⟨strCodes "data", 8, []⟩,
   ⟨strCodes "fmt ", 16, pcmPayloadBa2⟩, ⟨strCodes "data", 8, []⟩]

/-- A single `LIST` chunk record satisfying the walker invariant
(20 payload bytes for declared size 20): sub-type `INFO` and 16 tag bytes. -/
def listChunks : List RawChunk :=
  [⟨strCodes "LIST", 20, strCodes "INFO" ++ List.replicate 16 7⟩]

/-- A sentinel-size stream whose first post-header chunk is `JUNK`, not
`ds64`. -/
def badDs64Stream : List Nat :=
  strCodes "RIFF" ++ [255, 255, 255, 255] ++ strCodes "WAVE" ++ strCodes "JUNK"

/-- An RF64 stream with an ordinary (non-sentinel) container size. -/
def rf64NonSentinelStream : List Nat :=
  strCodes "RF64" ++ [36, 0, 0, 0] ++ strCodes "WAVE"

/-- A small standard-mode RIFF stream: one unknown chunk `abcd` of size 2. -/
def smallRiffStream : List Nat :=
  strCodes "RIFF" ++ [14, 0, 0, 0] ++ strCodes "WAVE"
    ++ strCodes "abcd" ++ [2, 0, 0, 0] ++ [7, 7]

deriving instance DecidableEq for Except

/-! Theorems.  Each claim-bearing theorem states the property in its doc
comment; helper lemmas carry no claim. -/

/-- C1: byte-order resolution evaluated at the identifiers the claim names.
`RIFF` (and the other forward tags) resolve forward and `RIFX` resolves
reversed as claimed, but the reversed-RIFF tag `FFIR` — the very tag the
repository's own signature table (`signatures.py`, entry
`Format("WAVE", "FFIR", ..., "big")`) routes to this decoder — raises the
unrecognized-container error, while the transposed string `FIRR`, which no
signature produces, is accepted as reversed. -/
theorem c1_ffir_eval :
    getByteorder (strCodes "FFIR")
        = Except.error "Invalid master chunk identifier: FFIR" ∧
    getByteorder (strCodes "FIRR") = Except.ok ByteOrder.big ∧
    getByteorder (strCodes "RIFF") = Except.ok ByteOrder.little ∧
    getByteorder (strCodes "BW64") = Except.ok ByteOrder.little ∧
    getByteorder (strCodes "RF64") = Except.ok ByteOrder.little ∧
    getByteorder (strCodes "RIFX") = Except.ok ByteOrder.big := by
  refine ⟨rfl, rfl, rfl, rfl, rfl, rfl⟩

/-- C9: a chunk whose identifier is on the skip-payload ignore list yields a
record with an empty payload and the full padding-adjusted size, and the
walker's stream state afterwards — data and position — is exactly the state
the same step would leave had the payload been fully read. -/
theorem c9_ignored_payload_seek (ignoreFlag : Bool) (id : List Nat) (m : Nat)
    (s : ByteStream) (h : id ∈ IGNORE_CHUNKS) :
    riffYield ignoreFlag id (padSize id m) s
      = (⟨id, padSize id m, []⟩, ⟨s.data, s.pos + padSize id m⟩) ∧
    (riffYieldMaterialized id (padSize id m) s).2
      = ⟨s.data, s.pos + padSize id m⟩ := by
  constructor
  · simp only [riffYield, if_pos (Or.inl h), ByteStream.seekRel,
      Prod.mk.injEq, ByteStream.mk.injEq, List.length_nil]
    refine ⟨trivial, trivial, ?_⟩
    omega
  · have ht : ((s.data.drop s.pos).take (padSize id m)).length ≤ padSize id m :=
      List.length_take_le _ _
    simp only [riffYieldMaterialized, ByteStream.read, ByteStream.seekRel,
      ByteStream.mk.injEq]
    refine ⟨trivial, ?_⟩
    omega

/-- C9 witness: the `JUNK` chunk (size 5, padded to 6) on a concrete
6-byte-payload stream. -/
theorem c9_ignored_payload_seek_witness :
    riffYield false (strCodes "JUNK") (padSize (strCodes "JUNK") 5)
        ⟨strCodes "JUNK" ++ [0, 0, 0, 0, 0, 0], 0⟩
      = (⟨strCodes "JUNK", 6, []⟩, ⟨strCodes "JUNK" ++ [0, 0, 0, 0, 0, 0], 6⟩) := by
  have h := c9_ignored_payload_seek false (strCodes "JUNK") 5
    ⟨strCodes "JUNK" ++ [0, 0, 0, 0, 0, 0], 0⟩ (by decide)
  calc riffYield false (strCodes "JUNK") (padSize (strCodes "JUNK") 5)
        ⟨strCodes "JUNK" ++ [0, 0, 0, 0, 0, 0], 0⟩
      = (⟨strCodes "JUNK", padSize (strCodes "JUNK") 5, []⟩,
          ⟨strCodes "JUNK" ++ [0, 0, 0, 0, 0, 0], 0 + padSize (strCodes "JUNK") 5⟩) := h.1
    _ = (⟨strCodes "JUNK", 6, []⟩, ⟨strCodes "JUNK" ++ [0, 0, 0, 0, 0, 0], 6⟩) := by decide

/-- C4 counterexample: an `RF64` master tag with an ordinary (non-sentinel)
container size is a recognized container per the byte-order map, yet the
walker raises the unknown-format error instead of entering standard mode. -/
theorem c4_rf64_nonsentinel_error :
    getByteorder (strCodes "RF64") = Except.ok ByteOrder.little ∧
    getChunks rf64NonSentinelStream false
      = Except.error "Unknown or unsupported format: RF64" := by
  refine ⟨rfl, rfl⟩

/-- C2: for every stream whose declared container size field reads as the
sentinel `0xFFFFFFFF` (under the byte order resolved from its master tag),
if the 4 bytes right after the 12-byte header are not the identifier
`ds64`, the walker fails with the fatal protocol error — and since the
error is raised before anything is yielded, no chunks accompany it. -/
theorem c2_ds64_required (streamData : List Nat) (ignoreFlag : Bool) (bo : ByteOrder)
    (hbo : getByteorder (streamData.take 4) = Except.ok bo)
    (hsize : fromBytes bo ((streamData.drop 4).take 4) = 0xffffffff)
    (hds : (streamData.drop 12).take 4 ≠ strCodes "ds64") :
    getChunks streamData ignoreFlag =
      Except.error ("Expected ds64 chunk but found "
        ++ codesToString ((streamData.drop 12).take 4)) := by
  have hds2 : ((⟨streamData, 12⟩ : ByteStream).read 4).1 ≠ strCodes "ds64" := hds
  unfold getChunks
  rw [hbo]
  show getChunksWithBo streamData ignoreFlag bo = _
  unfold getChunksWithBo
  rw [if_pos hsize]
  unfold rf64
  rw [if_pos hds2]
  rfl

/-- C2 witness: a sentinel-size RIFF stream whose first post-header chunk
identifier is `JUNK`. -/
theorem c2_ds64_required_witness :
    getChunks badDs64Stream false
      = Except.error "Expected ds64 chunk but found JUNK" := by
  have h := c2_ds64_required badDs64Stream false ByteOrder.little
    rfl (by decide) (by decide)
  calc getChunks badDs64Stream false
      = Except.error ("Expected ds64 chunk but found "
          ++ codesToString ((badDs64Stream.drop 12).take 4)) := h
    _ = Except.error "Expected ds64 chunk but found JUNK" := rfl

/-- C4 (amended): a stream whose master tag is one of `RIFF`, `RIFX`,
`FIRR`, `BW64` and whose declared container size is not the sentinel enters
standard mode: the walker returns the `riffLoop` triples with no error.
(`RF64` is excluded: as the counterexample shows, the standard-mode branch
of the source omits it, so a non-sentinel `RF64` stream raises instead.) -/
theorem c4_standard_mode (streamData : List Nat) (ignoreFlag : Bool) (bo : ByteOrder)
    (hmaster : streamData.take 4
      ∈ [strCodes "RIFF", strCodes "RIFX", strCodes "FIRR", strCodes "BW64"])
    (hbo : getByteorder (streamData.take 4) = Except.ok bo)
    (hsize : fromBytes bo ((streamData.drop 4).take 4) ≠ 0xffffffff) :
    getChunks streamData ignoreFlag =
      Except.ok (⟨streamData.take 4, bo, (streamData.drop 8).take 4, none⟩,
        riffLoop ignoreFlag bo (streamData.length + 2) ⟨streamData, 12⟩) := by
  unfold getChunks
  rw [hbo]
  show getChunksWithBo streamData ignoreFlag bo = _
  unfold getChunksWithBo
  rw [if_neg hsize, if_pos hmaster]

/-- C4 witness: a small standard-mode RIFF stream with one `abcd` chunk. -/
theorem c4_standard_mode_witness :
    getChunks smallRiffStream false
      = Except.ok (⟨strCodes "RIFF", ByteOrder.little, strCodes "WAVE", none⟩,
          [⟨strCodes "abcd", 2, [7, 7]⟩]) := by
  have h := c4_standard_mode smallRiffStream false ByteOrder.little
    (by decide) rfl (by decide)
  calc getChunks smallRiffStream false
      = Except.ok (⟨smallRiffStream.take 4, ByteOrder.little,
          (smallRiffStream.drop 8).take 4, none⟩,
          riffLoop false ByteOrder.little (smallRiffStream.length + 2)
            ⟨smallRiffStream, 12⟩) := h
    _ = Except.ok (⟨strCodes "RIFF", ByteOrder.little, strCodes "WAVE", none⟩,
          [⟨strCodes "abcd", 2, [7, 7]⟩]) := rfl

/-- C3: a `fmt ` payload whose format code is not 1 (non-PCM) with declared
size 16 resolves without an exception to a header-only record: the six
common header fields are decoded, the mode is left unresolved (`None`), the
single diagnostic is the non-PCM extension-field message, and every
extension field stays unset. -/
theorem c3_nonpcm_size16_header_only (bo : ByteOrder) (id : List Nat)
    (data : List Nat) (hlen : 16 ≤ data.length) (haf : u16 bo data 0 ≠ 1) :
    fmtDecode bo id 16 data = Except.ok
      { identifier := id, size := 16, mode := none
        sanity := [⟨fmtLoc ++ " -- AUDIO FORMAT / SIZE",
          "NON-PCM FORMATS MUST CONTAIN AN EXTENSION FIELD."⟩]
        audioFormat := u16 bo data 0, channelCount := u16 bo data 2
        sampleRate := u32 bo data 4, byteRate := u32 bo data 8
        blockAlign := u16 bo data 12, bitsPerSample := u16 bo data 14
        extensionSize := none, validBitsPerSample := none, channelMask := none
        speakerLayout := none, subformat := none, version := none
        pvocSize := none, wordFormat := none, analysisFormat := none
        sourceFormat := none, windowType := none, binCount := none
        windowLength := none, overlap := none, frameAlign := none
        analysisRateBits := none, windowParamBits := none } := by
  simp only [fmtDecode, if_neg (show ¬ data.length < 16 by omega)]
  rw [if_pos ⟨haf, trivial⟩]

/-- C3 witness: the A-law payload (format code 6) of declared size 16. -/
theorem c3_nonpcm_size16_header_only_witness :
    Except.map (fun r => (r.mode, r.sanity, r.audioFormat, r.extensionSize))
        (fmtDecode ByteOrder.little (strCodes "fmt ") 16 alawPayload)
      = Except.ok (none,
          [⟨fmtLoc ++ " -- AUDIO FORMAT / SIZE",
            "NON-PCM FORMATS MUST CONTAIN AN EXTENSION FIELD."⟩], 6, none) := by
  rw [c3_nonpcm_size16_header_only ByteOrder.little (strCodes "fmt ") alawPayload
    (by decide) (by decide)]
  rfl

/-- C5 counterexample: an 80-byte Extensible payload whose 16-byte
sub-format block is the big-endian byte-order representation of the PVOC-EX
GUID.  Its textual rendering is the lowercase spelling of the first
`PVOC_EX` entry (the conjunct through `pyLower` shows they differ only in
case), yet the resolver leaves the chunk Extensible and parses no
version/pvoc_size: only the all-lowercase second entry can ever match since
GUID renderings are lowercase.  So the claim fails for this byte-order
representation. -/
theorem c5_bigendian_guid_not_pvoc :
    guidStr ((c5dataBE.drop 24).take 16) = "8312b9c2-2e6e-11d4-a824-de5b96c3ab21" ∧
    (strCodes "8312B9C2-2E6E-11d4-A824-DE5B96C3AB21").map pyLower
      = strCodes "8312b9c2-2e6e-11d4-a824-de5b96c3ab21" ∧
    Except.map (fun r => (r.mode, r.version, r.pvocSize))
        (fmtDecode ByteOrder.little (strCodes "fmt ") 80 c5dataBE)
      = Except.ok (some "WAVE_FORMAT_EXTENSIBLE", none, none) ∧
    Except.map (fun r => r.mode)
        (fmtDecode ByteOrder.little (strCodes "fmt ") 80 c5dataBE)
      ≠ Except.ok (some "WAVE_FORMAT_PVOC_EX") := by
  refine ⟨rfl, rfl, rfl, by decide⟩

/-- C5 (amended): an Extensible `fmt ` chunk of declared size 80 whose
sub-format block is the little-endian byte-order representation of the
PVOC-EX GUID (rendered "c2b91283-…", the second `PVOC_EX` entry) is
re-interpreted as PVOC-EX, with `version` and `pvoc_size` parsed from
payload bytes 40-48; the other byte-order representation never triggers
this (see the counterexample), because its rendering matches the remaining
list entry only up to letter case. -/
theorem c5_pvoc_requires_lowercase_guid (bo : ByteOrder) (id : List Nat)
    (data : List Nat) (h48 : 48 ≤ data.length)
    (haf : u16 bo data 0 = 65534)
    (hguid : (data.drop 24).take 16 = pvocGuidBytesLE)
    (hseg : ((data.drop 48).take (u32 bo data 44)).length = 32) :
    ∃ r, fmtDecode bo id 80 data = Except.ok r ∧
      r.mode = some "WAVE_FORMAT_PVOC_EX" ∧
      r.version = some (u32 bo data 40) ∧
      r.pvocSize = some (u32 bo data 44) := by
  simp only [fmtDecode, if_neg (show ¬ data.length < 16 by omega)]
  rw [if_neg (show ¬(u16 bo data 0 ≠ 1 ∧ (80 : Int) = 16) from
    fun h => absurd h.2 (by decide))]
  rw [if_pos haf]
  rw [if_neg (show ¬ data.length < 24 by omega)]
  rw [hguid]
  rw [if_neg (show ¬ pvocGuidBytesLE.length < 2 by decide)]
  rw [if_neg (show ¬ pvocGuidBytesLE.length ≠ 16 by decide)]
  rw [if_pos (show guidStr pvocGuidBytesLE ∈ PVOC_EX by decide)]
  rw [if_neg (show ¬ (80 : Int) ≠ 80 by decide)]
  rw [if_neg (show ¬ data.length < 48 by omega)]
  rw [if_neg (show ¬ ((data.drop 48).take (u32 bo data 44)).length ≠ 32 from
    fun h => h hseg)]
  exact ⟨_, rfl, rfl, rfl, rfl⟩

/-- C5 witness: the 80-byte payload with the little-endian GUID layout and
`pvoc_size = 32`. -/
theorem c5_pvoc_requires_lowercase_guid_witness :
    ∃ r, fmtDecode ByteOrder.little (strCodes "fmt ") 80 c5dataLE = Except.ok r ∧
      r.mode = some "WAVE_FORMAT_PVOC_EX" ∧
      r.version = some (u32 ByteOrder.little c5dataLE 40) ∧
      r.pvocSize = some (u32 ByteOrder.little c5dataLE 44) :=
  c5_pvoc_requires_lowercase_guid ByteOrder.little (strCodes "fmt ") c5dataLE
    (by decide) (by decide) (by decide) (by decide)

/-- C7 counterexample: on a reversed (big-endian) stream, an Extensible
`fmt ` chunk whose payload bytes 24-25 are 00 01 gets sub-format code 1
(the big-endian reading), not 256 (the little-endian reading the claim
prescribes). -/
theorem c7_bigendian_subformat_code :
    Except.map (fun r => r.subformat.map (fun sf => sf.audioFormat))
        (fmtDecode ByteOrder.big (strCodes "fmt ") 40 c7dataBE)
      = Except.ok (some 1) ∧
    fromBytes ByteOrder.little ((c7dataBE.drop 24).take 2) = 256 ∧
    (1 : Nat) ≠ 256 := by
  refine ⟨rfl, rfl, by decide⟩

/-- C7 (amended): for every Extensible `fmt ` chunk the resolver decodes,
the sub-format's format code is the interpretation of payload bytes 24-25
in the *stream's resolved byte order* (so little-endian exactly when the
byte order is forward), and the GUID is the rendering of bytes 24-40. -/
theorem c7_subformat_code_stream_order (bo : ByteOrder) (id : List Nat)
    (size : Int) (data : List Nat) (r : WaveFormatChunk)
    (h40 : 40 ≤ data.length) (haf : u16 bo data 0 = 65534) (hs : size ≠ 16)
    (hr : fmtDecode bo id size data = Except.ok r) :
    r.subformat = some ⟨fromBytes bo ((data.drop 24).take 2),
      guidStr ((data.drop 24).take 16)⟩ := by
  have hsfmt : ((data.drop 24).take 16).length = 16 := by
    simp only [List.length_take, List.length_drop]; omega
  simp only [fmtDecode, if_neg (show ¬ data.length < 16 by omega)] at hr
  rw [if_neg (show ¬(u16 bo data 0 ≠ 1 ∧ size = 16) from fun h => hs h.2)] at hr
  rw [if_pos haf] at hr
  rw [if_neg (show ¬ data.length < 24 by omega)] at hr
  rw [if_neg (show ¬ ((data.drop 24).take 16).length < 2 by rw [hsfmt]; omega)] at hr
  rw [if_neg (show ¬ ((data.drop 24).take 16).length ≠ 16 from fun h => h hsfmt)] at hr
  split at hr
  · split at hr
    · rw [Except.ok.injEq] at hr
      subst hr
      simp [List.take_take]
    · split at hr
      · exact (Except.noConfusion hr)
      · split at hr
        · exact (Except.noConfusion hr)
        · rw [Except.ok.injEq] at hr
          subst hr
          simp [List.take_take]
  · split at hr <;>
      (rw [Except.ok.injEq] at hr; subst hr; simp [List.take_take])

/-- C7 witness: the big-endian Extensible payload, with the sub-format code
read in the stream's (big-endian) byte order. -/
theorem c7_subformat_code_stream_order_witness :
    ∃ r, fmtDecode ByteOrder.big (strCodes "fmt ") 40 c7dataBE = Except.ok r ∧
      r.subformat = some ⟨fromBytes ByteOrder.big ((c7dataBE.drop 24).take 2),
        guidStr ((c7dataBE.drop 24).take 16)⟩ := by
  refine ⟨_, rfl, ?_⟩
  exact c7_subformat_code_stream_order ByteOrder.big (strCodes "fmt ") 40 c7dataBE _
    (by decide) (by decide) (by decide) rfl

/-- C6 (amended): assembling two `fmt `/`data` pairs produces the slots
`fmt`, `fmt2`, `data`, `data2`; the *first* `data` slot's `frame_count` is
computed — from the *first* `fmt`'s `block_align` — but `data2`'s
`frame_count` is never computed and stays unset, because the recomputation
at the end of every iteration always reads the attributes `self.fmt` and
`self.data`, which keep pointing at the first occurrences. -/
theorem c6_second_pair_framecount_unset (bo : ByteOrder)
    (p1 p2 d1 d2 : List Nat) (n1 n2 : Nat) (f1 f2 : WaveFormatChunk)
    (hf1 : fmtDecode bo (strCodes "fmt ") 16 p1 = Except.ok f1)
    (hf2 : fmtDecode bo (strCodes "fmt ") 16 p2 = Except.ok f2)
    (hb : ¬ f1.blockAlign = 0) :
    assembleChunks bo [⟨strCodes "fmt ", 16, p1⟩, ⟨strCodes "data", n1, d1⟩,
        ⟨strCodes "fmt ", 16, p2⟩, ⟨strCodes "data", n2, d2⟩] = Except.ok
      ⟨[(strCodes "fmt ", (16 : Int), p1), (strCodes "data", (n1 : Int), d1),
        (strCodes "fmt ", (16 : Int), p2), (strCodes "data", (n2 : Int), d2)],
       [("fmt", Decoded.fmtChunk f1),
        ("data", Decoded.dataChunk ⟨strCodes "data", d1, (n1 : Int),
          some ((n1 : Int) / (f1.blockAlign : Int))⟩),
        ("fmt2", Decoded.fmtChunk f2),
        ("data2", Decoded.dataChunk ⟨strCodes "data", d2, (n2 : Int), none⟩)],
       [("fmt", 2), ("data", 2)]⟩ := by
  have e1 : ¬(strCodes "fmt " = strCodes "LIST" ∨ strCodes "fmt " = strCodes "adtl") := by
    decide
  have e2 : ¬(strCodes "data" = strCodes "LIST" ∨ strCodes "data" = strCodes "adtl") := by
    decide
  have e3 : codesToString (pyStrip (List.map pyLower (strCodes "fmt "))) = "fmt" := by
    decide
  have e4 : codesToString (pyStrip (List.map pyLower (strCodes "data"))) = "data" := by
    decide
  have e5 : ("fmt" : String) ≠ "_pmx" := by decide
  have e6 : ("data" : String) ≠ "_pmx" := by decide
  have e7 : ("fmt" : String) ∈ DECODER_IDS := by decide
  have e8 : ("data" : String) ∈ DECODER_IDS := by decide
  have e9 : ("data" : String) ≠ "fmt" := by decide
  have e10 : ("fmt" : String) ≠ "data" := by decide
  have e11 : ("fmt" : String) ++ toString (2 : Nat) = "fmt2" := by decide
  have e12 : ("data" : String) ++ toString (2 : Nat) = "data2" := by decide
  have e13 : ("fmt" : String) ≠ "fmt2" := by decide
  have e14 : ("data" : String) ≠ "fmt2" := by decide
  have e15 : ("fmt" : String) ≠ "data2" := by decide
  have e16 : ("data" : String) ≠ "data2" := by decide
  have e17 : ("fmt2" : String) ≠ "data2" := by decide
  have s1 : assembleStep bo ⟨[], [], []⟩ (strCodes "fmt ", (16 : Int), p1)
      = Except.ok ⟨[(strCodes "fmt ", (16 : Int), p1)],
          [("fmt", Decoded.fmtChunk f1)], [("fmt", 1)]⟩ := by
    simp [assembleStep, recomputeFrameCount, setSlot, countOf, setCount,
      SWaveDoc.slot, e1, e3, e5, e7, hf1]
  have s2 : assembleStep bo ⟨[(strCodes "fmt ", (16 : Int), p1)],
        [("fmt", Decoded.fmtChunk f1)], [("fmt", 1)]⟩
        (strCodes "data", (n1 : Int), d1)
      = Except.ok ⟨[(strCodes "fmt ", (16 : Int), p1), (strCodes "data", (n1 : Int), d1)],
          [("fmt", Decoded.fmtChunk f1),
           ("data", Decoded.dataChunk ⟨strCodes "data", d1, (n1 : Int),
             some ((n1 : Int) / (f1.blockAlign : Int))⟩)],
          [("fmt", 1), ("data", 1)]⟩ := by
    simp [assembleStep, recomputeFrameCount, setSlot, countOf, setCount,
      SWaveDoc.slot, e2, e4, e6, e8, e9, e10, hb]
  have s3 : assembleStep bo ⟨[(strCodes "fmt ", (16 : Int), p1),
          (strCodes "data", (n1 : Int), d1)],
        [("fmt", Decoded.fmtChunk f1),
         ("data", Decoded.dataChunk ⟨strCodes "data", d1, (n1 : Int),
           some ((n1 : Int) / (f1.blockAlign : Int))⟩)],
        [("fmt", 1), ("data", 1)]⟩
        (strCodes "fmt ", (16 : Int), p2)
      = Except.ok ⟨[(strCodes "fmt ", (16 : Int), p1), (strCodes "data", (n1 : Int), d1),
          (strCodes "fmt ", (16 : Int), p2)],
          [("fmt", Decoded.fmtChunk f1),
           ("data", Decoded.dataChunk ⟨strCodes "data", d1, (n1 : Int),
             some ((n1 : Int) / (f1.blockAlign : Int))⟩),
           ("fmt2", Decoded.fmtChunk f2)],
          [("fmt", 2), ("data", 1)]⟩ := by
    simp [assembleStep, recomputeFrameCount, setSlot, countOf, setCount,
      SWaveDoc.slot, e1, e3, e5, e7, e10, e11, e13, e14, hf2, hb]
  have s4 : assembleStep bo ⟨[(strCodes "fmt ", (16 : Int), p1),
          (strCodes "data", (n1 : Int), d1), (strCodes "fmt ", (16 : Int), p2)],
        [("fmt", Decoded.fmtChunk f1),
         ("data", Decoded.dataChunk ⟨strCodes "data", d1, (n1 : Int),
           some ((n1 : Int) / (f1.blockAlign : Int))⟩),
         ("fmt2", Decoded.fmtChunk f2)],
        [("fmt", 2), ("data", 1)]⟩
        (strCodes "data", (n2 : Int), d2)
      = Except.ok ⟨[(strCodes "fmt ", (16 : Int), p1), (strCodes "data", (n1 : Int), d1),
          (strCodes "fmt ", (16 : Int), p2), (strCodes "data", (n2 : Int), d2)],
          [("fmt", Decoded.fmtChunk f1),
           ("data", Decoded.dataChunk ⟨strCodes "data", d1, (n1 : Int),
             some ((n1 : Int) / (f1.blockAlign : Int))⟩),
           ("fmt2", Decoded.fmtChunk f2),
           ("data2", Decoded.dataChunk ⟨strCodes "data", d2, (n2 : Int), none⟩)],
          [("fmt", 2), ("data", 2)]⟩ := by
    simp [assembleStep, recomputeFrameCount, setSlot, countOf, setCount,
      SWaveDoc.slot, e2, e4, e6, e8, e9, e10, e12, e14, e15, e16, e17, hb]
  simp only [assembleChunks, List.map_cons, List.map_nil, Nat.cast_ofNat,
    assembleList, s1, s2, s3, s4]

/-- C6 counterexample: two concrete pairs with block alignments 4 and 2 and
8-byte data chunks.  The claim says the `data2` slot's `frame_count` equals
its own pair's `8 / 2 = 4`; the assembled document leaves it unset. -/
theorem c6_crosspair_framecount_cex :
    (Except.map (fun d => (slotFrameCount d "data", slotFrameCount d "data2"))
        (assembleChunks ByteOrder.little twoPairChunks))
      = Except.ok (some (some 2), some none) ∧
    (some none : Option (Option Int)) ≠ some (some ((8 : Int) / (2 : Int))) := by
  refine ⟨rfl, by decide⟩

/-- C6 witness: the two concrete pairs, with every slot spelled out. -/
theorem c6_second_pair_framecount_unset_witness :
    (Except.map (fun d => (slotFrameCount d "data", slotFrameCount d "data2",
          d.counts))
        (assembleChunks ByteOrder.little twoPairChunks))
      = Except.ok (some (some 2), some none, [("fmt", 2), ("data", 2)]) := by
  have h := c6_second_pair_framecount_unset ByteOrder.little
    pcmPayloadBa4 pcmPayloadBa2 [] [] 8 8 _ _ rfl rfl (by decide)
  show (Except.map (fun d => (slotFrameCount d "data", slotFrameCount d "data2",
          d.counts))
      (assembleChunks ByteOrder.little
        [⟨strCodes "fmt ", 16, pcmPayloadBa4⟩, ⟨strCodes "data", 8, []⟩,
         ⟨strCodes "fmt ", 16, pcmPayloadBa2⟩, ⟨strCodes "data", 8, []⟩]))
    = Except.ok (some (some 2), some none, [("fmt", 2), ("data", 2)])
  rw [h]
  rfl

/-- C10: when the decoded `fmt ` chunk has `block_align = 0` and a `data`
chunk is present, the frame-count recomputation divides by zero and the
whole assembly aborts with an uncaught `ZeroDivisionError` — the division
`data.byte_count / fmt.block_align` is unguarded. -/
theorem c10_blockalign_zero_divides (bo : ByteOrder) (p d : List Nat) (n : Nat)
    (f : WaveFormatChunk)
    (hf : fmtDecode bo (strCodes "fmt ") 16 p = Except.ok f)
    (hb : f.blockAlign = 0) :
    assembleChunks bo [⟨strCodes "fmt ", 16, p⟩, ⟨strCodes "data", n, d⟩]
      = Except.error "ZeroDivisionError: division by zero" := by
  have e1 : ¬(strCodes "fmt " = strCodes "LIST" ∨ strCodes "fmt " = strCodes "adtl") := by
    decide
  have e2 : ¬(strCodes "data" = strCodes "LIST" ∨ strCodes "data" = strCodes "adtl") := by
    decide
  have e3 : codesToString (pyStrip (List.map pyLower (strCodes "fmt "))) = "fmt" := by
    decide
  have e4 : codesToString (pyStrip (List.map pyLower (strCodes "data"))) = "data" := by
    decide
  have e5 : ("fmt" : String) ≠ "_pmx" := by decide
  have e6 : ("data" : String) ≠ "_pmx" := by decide
  have e7 : ("fmt" : String) ∈ DECODER_IDS := by decide
  have e8 : ("data" : String) ∈ DECODER_IDS := by decide
  have e9 : ("data" : String) ≠ "fmt" := by decide
  have e10 : ("fmt" : String) ≠ "data" := by decide
  have s1 : assembleStep bo ⟨[], [], []⟩ (strCodes "fmt ", (16 : Int), p)
      = Except.ok ⟨[(strCodes "fmt ", (16 : Int), p)],
          [("fmt", Decoded.fmtChunk f)], [("fmt", 1)]⟩ := by
    simp [assembleStep, recomputeFrameCount, setSlot, countOf, setCount,
      SWaveDoc.slot, e1, e3, e5, e7, hf]
  have s2 : assembleStep bo ⟨[(strCodes "fmt ", (16 : Int), p)],
        [("fmt", Decoded.fmtChunk f)], [("fmt", 1)]⟩
        (strCodes "data", (n : Int), d)
      = Except.error "ZeroDivisionError: division by zero" := by
    simp [assembleStep, recomputeFrameCount, setSlot, countOf, setCount,
      SWaveDoc.slot, e2, e4, e6, e8, e9, e10, hb]
  simp only [assembleChunks, List.map_cons, List.map_nil, Nat.cast_ofNat,
    assembleList, s1, s2]

/-- C10 witness: a concrete PCM payload with `block_align = 0` followed by
a `data` chunk. -/
theorem c10_blockalign_zero_divides_witness :
    assembleChunks ByteOrder.little
        [⟨strCodes "fmt ", 16, pcmPayloadBa0⟩, ⟨strCodes "data", 8, []⟩]
      = Except.error "ZeroDivisionError: division by zero" :=
  c10_blockalign_zero_divides ByteOrder.little pcmPayloadBa0 [] 8 _ rfl rfl

/-- C8 counterexample: a conforming `LIST` chunk (20 payload bytes, size
20).  The registry's record list retains the original record — which keeps
the invariant — but the synthetic re-emitted record declares size
`20 − 12 = 8` while its payload holds `20 − 4 = 16` bytes, so the RawChunk
invariant fails on it. -/
theorem c8_synthetic_record_cex :
    chunkRecords ByteOrder.little listChunks
      = [(strCodes "LIST", 20, strCodes "INFO" ++ List.replicate 16 7),
         (strCodes "INFO", 8, List.replicate 16 7)] ∧
    ¬ (((List.replicate 16 (7 : Nat)).length : Int) = 8) := by
  refine ⟨rfl, by decide⟩

/-- C8 (amended): for a `LIST`/`adtl` record that satisfies the walker
invariant (payload length equal to declared size) and has at least the
4-byte sub-type tag, the synthetic record's payload length exceeds its
declared size by exactly 8: the payload loses 4 bytes while the declared
size drops by 12. -/
theorem c8_synthetic_record_offset (size : Int) (data : List Nat)
    (hinv : (data.length : Int) = size) (h4 : 4 ≤ data.length) :
    ((listSynthetic size data).2.2.length : Int)
      = (listSynthetic size data).2.1 + 8 := by
  simp only [listSynthetic, List.length_drop]
  omega

/-- C8 witness: the concrete `LIST` chunk of the counterexample. -/
theorem c8_synthetic_record_offset_witness :
    ((listSynthetic 20 (strCodes "INFO" ++ List.replicate 16 7)).2.2.length : Int)
      = (listSynthetic 20 (strCodes "INFO" ++ List.replicate 16 7)).2.1 + 8 :=
  c8_synthetic_record_offset 20 (strCodes "INFO" ++ List.replicate 16 7)
    (by decide) (by decide)

end Silver
